/-
Verification of the Face-mood-Analyzer matching and composition pipeline
(src/emotion_analyzer.py) against its natural-language specification.

Shallow embedding conventions:
* Python floats are modelled as rationals (ℚ); `float('inf')` as `none` of
  `Option ℚ`.
* The external DeepFace calls are modelled by their observable outcomes:
  a `DeepFace.verify` call on one (region, reference) pair yields
  `Option VerifyResult` (`none` = the call raised an exception, which the
  source catches and treats as a non-match); a `DeepFace.analyze` emotion
  call yields `Option String` (`none` = exception).
* Images, drawing and geometry are abstracted away: a detected face region
  is modelled after the clipping step (lines 160-176 of the source) by the
  list of verification outcomes it produces against the reference set, plus
  its emotion-classification outcome.
-/
import Mathlib

namespace FaceMood

/-- Outcome of one successful DeepFace.verify call: the reported `verified`
flag and the reported `distance` (src line 184-190). -/
structure VerifyResult where
  verified : Bool
  distance : ℚ
  deriving DecidableEq, Repr

/-- A detected face region (post-clipping), modelled by the outcomes of its
pairwise verification calls against the reference set (one entry per
reference image, in reference-set order; `none` = the call raised) and the
outcome of its emotion-classification call. -/
structure Region where
  votes : List (Option VerifyResult)
  emotionResult : Option String
  deriving DecidableEq, Repr

/-- A candidate photo: whether `cv2.imread` decodes it, and its detected
face regions (src lines 149-160). -/
structure Photo where
  decodable : Bool
  regions : List Region
  deriving DecidableEq, Repr

/-- The guard of src line 192: a pairwise vote increments `match_count` iff
the call succeeded, reported `verified`, and its distance is at most the
configured threshold. -/
def voteCounts (thr : ℚ) : Option VerifyResult → Bool
  | none => false
  | some r => r.verified && decide (r.distance ≤ thr)

/-- Total number of pairwise votes that satisfy the src line 192 guard,
with no short-circuiting. -/
def fullCount (thr : ℚ) (votes : List (Option VerifyResult)) : ℕ :=
  votes.countP (voteCounts thr)

/-- src line 194: `best_distance = min(best_distance, result['distance'])`,
where `best_distance` starts at `float('inf')` (modelled as `none`). -/
def updBest (d : ℚ) : Option ℚ → Option ℚ
  | none => some d
  | some x => some (min x d)

/-- The matching loop of src lines 179-200: walk the reference outcomes in
order (a `none` outcome is the caught exception of lines 199-200 and is
skipped), counting votes that pass the line 192 guard and tracking the best
(minimum) matched distance, breaking as soon as `match_count` reaches
`required_matches` (lines 196-197). -/
def matchLoop (thr : ℚ) (k : ℕ) :
    List (Option VerifyResult) → ℕ → Option ℚ → ℕ × Option ℚ
  | [], c, b => (c, b)
  | none :: rest, c, b => matchLoop thr k rest c b
  | some r :: rest, c, b =>
    if r.verified && decide (r.distance ≤ thr) then
      if k ≤ c + 1 then (c + 1, updBest r.distance b)
      else matchLoop thr k rest (c + 1) (updBest r.distance b)
    else matchLoop thr k rest c b

/-- The verification decision of src line 202: the region is verified iff
the match count computed by the loop is at least
`min(required_matches, len(reference_images))`. -/
def regionVerified (thr : ℚ) (k : ℕ) (votes : List (Option VerifyResult)) :
    Bool :=
  decide (min k votes.length ≤ (matchLoop thr k votes 0 none).1)

/-- Banker's (round-half-to-even) rounding to an integer, the semantics of
Python's builtin `round`. -/
def pyRoundInt (q : ℚ) : ℤ :=
  let f := ⌊q⌋
  let r := q - f
  if r < 1/2 then f
  else if 1/2 < r then f + 1
  else if Even f then f else f + 1

/-- src line 212: `confidence_score = round((1 - best_distance) * 100, 1)`
(one decimal place, no clamping). -/
def confidenceScore (d : ℚ) : ℚ :=
  (pyRoundInt ((1 - d) * 100 * 10) : ℚ) / 10

/-- Definition taken from the spec's words, for comparison with the code:
`confidence = clamp((1-best_distance)*100, 0, 100)`. -/
def specClampConfidence (d : ℚ) : ℚ :=
  max 0 (min 100 ((1 - d) * 100))

/-- An annotated region as drawn by src lines 203-249: the emotion label
and the best distance the confidence is computed from (`none` = the loop
matched nothing,`best_distance` still `inf`). -/
structure AnnotatedRegion where
  emotion : String
  bestDistance : Option ℚ
  confidence : Option ℚ
  deriving DecidableEq, Repr

/-- Processing of one region inside `_process_single_photo`
(src lines 160-253): when the line 202 decision holds, one emotion
classification call is made; if it raises (`none`) the region is skipped
(line 251-253), otherwise the region is annotated with the label and the
confidence derived from the loop's best distance. -/
def processRegion (thr : ℚ) (k : ℕ) (reg : Region) :
    Option AnnotatedRegion :=
  let res := matchLoop thr k reg.votes 0 none
  if min k reg.votes.length ≤ res.1 then
    reg.emotionResult.map (fun e =>
      { emotion := e
        bestDistance := res.2
        confidence := res.2.map confidenceScore })
  else none

/-- `_process_single_photo` (src lines 146-261): an undecodable image
returns `None`; otherwise each detected region is processed and the photo
yields output only when at least one region was annotated
(lines 255-257). -/
def processSinglePhoto (thr : ℚ) (k : ℕ) (p : Photo) :
    Option (List AnnotatedRegion) :=
  if p.decodable then
    let anns := p.regions.filterMap (processRegion thr k)
    if anns.isEmpty then none else some anns
  else none

/-- `mark_reference_faces_in_photos` (src lines 263-323): raises
`ValueError("No reference images found!")` when the reference set is empty
(lines 277-278), and otherwise processes every candidate photo, keeping the
outputs of the photos that produced one (batching preserves submission
order, so the batched collection of lines 286-318 is the order-preserving
`filterMap`). -/
def markReferenceFaces (refs : List Unit) (thr : ℚ) (k : ℕ)
    (photos : List Photo) : Except String (List (List AnnotatedRegion)) :=
  if refs.length = 0 then Except.error "No reference images found!"
  else Except.ok (photos.filterMap (processSinglePhoto thr k))

end FaceMood

namespace FaceMood

/-- The loop of src lines 182-200 computes `min` of the full (unshortened)
vote count and the break threshold `required_matches`: short-circuiting
caps the count at `k` but never changes whether the line 202 bound is
reached. -/
theorem matchLoop_fst (thr : ℚ) (k : ℕ) (votes : List (Option VerifyResult)) :
    ∀ (c : ℕ) (b : Option ℚ), c < k →
      (matchLoop thr k votes c b).1 = min (c + fullCount thr votes) k := by
  induction votes with
  | nil =>
    intro c b hc
    simp only [matchLoop, fullCount, List.countP_nil]
    omega
  | cons v rest ih =>
    intro c b hc
    cases v with
    | none =>
      rw [matchLoop, ih c b hc]
      simp [fullCount, List.countP_cons, voteCounts]
    | some r =>
      have hcount : fullCount thr (some r :: rest) =
          fullCount thr rest +
            (if r.verified && decide (r.distance ≤ thr) then 1 else 0) := by
        simp [fullCount, List.countP_cons, voteCounts]
      by_cases hv : (r.verified && decide (r.distance ≤ thr)) = true
      · rw [matchLoop, if_pos hv, hcount, if_pos hv]
        by_cases hk : k ≤ c + 1
        · rw [if_pos hk]
          show c + 1 = _
          omega
        · rw [if_neg hk, ih (c + 1) _ (by omega)]
          omega
      · rw [matchLoop, if_neg hv, ih c b hc, hcount, if_neg hv]
        omega

/-- Helper region for witnesses: two clean matches at distances 1/2 and
3/5 against a two-image reference set, with a successful emotion call. -/
def demoRegion : Region :=
  { votes := [some ⟨true, 1/2⟩, some ⟨true, 3/5⟩]
    emotionResult := some "happy" }

/-- A region that passes verification against both of its references
(distances 1/2 and 3/5, both within the threshold) but whose
emotion-classification call raises. -/
def failRegion : Region :=
  { votes := [some ⟨true, 1/2⟩, some ⟨true, 3/5⟩]
    emotionResult := none }

/-- C1 is refuted in its parenthetical: with threshold 17/25 and
`required_matches = 2`, `failRegion` satisfies `match_count ≥ min(k, n)`
and so is verified, yet it is NOT annotated or drawn — its
emotion-classification call raises and src lines 251-253 skip the region.
So "verified (and therefore annotated and drawn)" fails. -/
theorem c1_counterexample :
    regionVerified (17/25) 2 failRegion.votes = true ∧
    failRegion.emotionResult = none ∧
    processRegion (17/25) 2 failRegion = none := by
  have hloop : matchLoop (17/25) 2 failRegion.votes 0 none =
      (2, some (1/2)) := by
    norm_num [failRegion, matchLoop, updBest, min_def]
  refine ⟨?_, rfl, ?_⟩
  · unfold regionVerified
    rw [hloop]
    decide
  · unfold processRegion
    rw [hloop]
    simp [failRegion]

/-- C1 amended: for every region, reference set of size `n` and
`required_matches = k ≥ 1`, the region is verified iff its total number of
matching references is at least `min(k, n)`, and it is annotated (drawn)
iff it is verified AND its emotion-classification call succeeds. -/
theorem c1_verified_iff_min_matches (thr : ℚ) (k : ℕ) (hk : 1 ≤ k)
    (reg : Region) :
    (regionVerified thr k reg.votes = true ↔
      min k reg.votes.length ≤ fullCount thr reg.votes) ∧
    ((processRegion thr k reg).isSome = true ↔
      (regionVerified thr k reg.votes = true ∧
        reg.emotionResult.isSome = true)) := by
  have hfst := matchLoop_fst thr k reg.votes 0 none (by omega)
  constructor
  · rw [regionVerified, hfst]
    simp only [Nat.zero_add, decide_eq_true_eq]
    omega
  · rw [processRegion, regionVerified, hfst]
    simp only [Nat.zero_add, decide_eq_true_eq]
    by_cases hcond : min k reg.votes.length ≤ min (fullCount thr reg.votes) k
    · simp [hcond]
    · simp [hcond]

/-- Witness for C1 at a concrete region: both hypotheses hold and the
theorem applies. -/
theorem c1_verified_iff_min_matches_witness :
    (1 ≤ 2 ∧
      ((regionVerified (17/25) 2 demoRegion.votes = true ↔
        min 2 demoRegion.votes.length ≤ fullCount (17/25) demoRegion.votes) ∧
      ((processRegion (17/25) 2 demoRegion).isSome = true ↔
        (regionVerified (17/25) 2 demoRegion.votes = true ∧
          demoRegion.emotionResult.isSome = true)))) :=
  ⟨by decide, c1_verified_iff_min_matches (17/25) 2 (by decide) demoRegion⟩

/-- C2 is refuted: a verification outcome whose reported distance (0) is at
most the configured threshold (17/25) but whose reported `verified` flag is
false does not count toward `match_count` — the loop leaves the count at 0,
against the claimed "counts iff distance ≤ threshold". -/
theorem c2_counterexample :
    ((0 : ℚ) ≤ 17/25) ∧
    voteCounts (17/25) (some ⟨false, 0⟩) = false ∧
    (matchLoop (17/25) 2 [some ⟨false, 0⟩] 0 none).1 = 0 := by
  refine ⟨by norm_num, by simp [voteCounts], by norm_num [matchLoop]⟩

/-- C2 amended: a pairwise vote counts toward `match_count` iff the
verification call succeeded, reported `verified = true`, AND its reported
distance is at most the configured threshold; the loop's final count is
`min` of the number of such votes and `required_matches`. -/
theorem c2_vote_counts_iff (thr : ℚ) (k : ℕ) (hk : 1 ≤ k)
    (votes : List (Option VerifyResult)) (r : VerifyResult) :
    (voteCounts thr (some r) = true ↔
      (r.verified = true ∧ r.distance ≤ thr)) ∧
    (matchLoop thr k votes 0 none).1 = min (fullCount thr votes) k := by
  constructor
  · simp [voteCounts]
  · rw [matchLoop_fst thr k votes 0 none (by omega)]
    simp

/-- Witness for C2 amended at concrete inputs. -/
theorem c2_vote_counts_iff_witness :
    (1 ≤ 2 ∧
      ((voteCounts (17/25) (some ⟨true, 1/2⟩) = true ↔
        ((true : Bool) = true ∧ (1/2 : ℚ) ≤ 17/25)) ∧
      (matchLoop (17/25) 2 demoRegion.votes 0 none).1 =
        min (fullCount (17/25) demoRegion.votes) 2)) :=
  ⟨by decide, c2_vote_counts_iff (17/25) 2 (by decide) demoRegion.votes ⟨true, 1/2⟩⟩

/-- Votes of a region against references (A, B): both match, A at distance
1/2, B at distance 1/10. -/
def votesA : List (Option VerifyResult) := [some ⟨true, 1/2⟩, some ⟨true, 1/10⟩]

/-- The same two verification outcomes with the reference order swapped. -/
def votesB : List (Option VerifyResult) := [some ⟨true, 1/10⟩, some ⟨true, 1/2⟩]

/-- C4 is refuted: with `required_matches = 1`, the loop short-circuits
after the first match, so permuting the reference set changes
`best_distance` (1/2 vs 1/10) and the displayed confidence (50% vs 90%),
although the two vote lists are permutations of each other. -/
theorem c4_counterexample :
    votesA.Perm votesB ∧
    (matchLoop (17/25) 1 votesA 0 none).2 = some (1/2) ∧
    (matchLoop (17/25) 1 votesB 0 none).2 = some (1/10) ∧
    confidenceScore (1/2) = 50 ∧
    confidenceScore (1/10) = 90 ∧
    (matchLoop (17/25) 1 votesA 0 none).2 ≠ (matchLoop (17/25) 1 votesB 0 none).2 := by
  have hA : matchLoop (17/25) 1 votesA 0 none = (1, some (1/2)) := by
    norm_num [votesA, matchLoop, updBest]
  have hB : matchLoop (17/25) 1 votesB 0 none = (1, some (1/10)) := by
    norm_num [votesB, matchLoop, updBest]
  have hcA : confidenceScore (1/2) = 50 := by
    have h1 : ((1:ℚ) - 1/2) * 100 * 10 = 500 := by norm_num
    rw [confidenceScore, h1]
    norm_num [pyRoundInt]
  have hcB : confidenceScore (1/10) = 90 := by
    have h1 : ((1:ℚ) - 1/10) * 100 * 10 = 900 := by norm_num
    rw [confidenceScore, h1]
    norm_num [pyRoundInt]
  refine ⟨List.Perm.swap _ _ _, by rw [hA], by rw [hB], hcA, hcB, ?_⟩
  rw [hA, hB]
  norm_num

/-- C4 amended: permuting the reference set leaves the verified/unverified
decision of every region unchanged (the total match count and the reference
count are permutation invariants); `best_distance` and the displayed
confidence are NOT invariant because of the short-circuit. -/
theorem c4_verified_perm_invariant (thr : ℚ) (k : ℕ) (hk : 1 ≤ k)
    (v1 v2 : List (Option VerifyResult)) (hp : v1.Perm v2) :
    regionVerified thr k v1 = regionVerified thr k v2 := by
  have h1 := matchLoop_fst thr k v1 0 none (by omega)
  have h2 := matchLoop_fst thr k v2 0 none (by omega)
  rw [regionVerified, regionVerified, h1, h2, hp.length_eq]
  have hc : fullCount thr v1 = fullCount thr v2 := hp.countP_eq _
  rw [hc]

/-- Witness for C4 amended at the concrete swapped vote lists. -/
theorem c4_verified_perm_invariant_witness :
    (1 ≤ 1 ∧ votesA.Perm votesB ∧
      regionVerified (17/25) 1 votesA = regionVerified (17/25) 1 votesB) :=
  ⟨by decide, List.Perm.swap _ _ _,
    c4_verified_perm_invariant (17/25) 1 (by decide) votesA votesB
      (List.Perm.swap _ _ _)⟩

end FaceMood

namespace FaceMood

/-- Python's `round` returns either the floor or the floor plus one, so it
is bracketed by floor and ceiling. -/
theorem pyRoundInt_bounds (q : ℚ) : ⌊q⌋ ≤ pyRoundInt q ∧ pyRoundInt q ≤ ⌈q⌉ := by
  have hfc : ⌊q⌋ ≤ ⌈q⌉ := Int.floor_le_ceil q
  have hlt : (1:ℚ)/2 ≤ q - ⌊q⌋ → ⌊q⌋ + 1 ≤ ⌈q⌉ := by
    intro h
    have hq : (⌊q⌋ : ℚ) < q := by linarith
    exact Int.lt_ceil.mpr hq
  simp only [pyRoundInt]
  split_ifs with h1 h2 h3
  · exact ⟨le_refl _, hfc⟩
  · exact ⟨by omega, hlt (le_of_lt h2)⟩
  · exact ⟨le_refl _, hfc⟩
  · exact ⟨by omega, hlt (not_lt.mp h1)⟩

/-- C3 is refuted: src line 212 applies no clamp, so at
`best_distance = 1.5` (reachable, e.g. euclidean metrics report distances
above 1) the code displays `-50.0`, while the spec's clamped formula gives
`0`; the confidence is negative, not in `[0, 100]`. -/
theorem c3_counterexample :
    confidenceScore (3/2) = -50 ∧
    specClampConfidence (3/2) = 0 ∧
    confidenceScore (3/2) ≠ specClampConfidence (3/2) ∧
    ¬ (0 ≤ confidenceScore (3/2)) := by
  have h : confidenceScore (3/2) = -50 := by
    have h1 : ((1:ℚ) - 3/2) * 100 * 10 = -500 := by norm_num
    rw [confidenceScore, h1]
    norm_num [pyRoundInt]
  have hclamp : specClampConfidence (3/2) = 0 := by
    rw [specClampConfidence]
    norm_num
  refine ⟨h, hclamp, ?_, ?_⟩
  · rw [h, hclamp]; norm_num
  · rw [h]; norm_num

/-- C3 amended: the code's confidence is `round((1 - best_distance)*100, 1)`
with no clamping; it lies in `[0, 100]` whenever `best_distance ∈ [0, 1]`
(but is negative for `best_distance > 1`). -/
theorem c3_confidence_in_range (d : ℚ) (h0 : 0 ≤ d) (h1 : d ≤ 1) :
    0 ≤ confidenceScore d ∧ confidenceScore d ≤ 100 := by
  have hq0 : (0:ℚ) ≤ (1 - d) * 100 * 10 := by nlinarith
  have hq1 : (1 - d) * 100 * 10 ≤ 1000 := by nlinarith
  obtain ⟨hlo, hhi⟩ := pyRoundInt_bounds ((1 - d) * 100 * 10)
  have hplo : (0:ℤ) ≤ pyRoundInt ((1 - d) * 100 * 10) :=
    le_trans (Int.le_floor.mpr (by exact_mod_cast hq0)) hlo
  have hphi : pyRoundInt ((1 - d) * 100 * 10) ≤ 1000 :=
    le_trans hhi (Int.ceil_le.mpr (by exact_mod_cast hq1))
  have hc0 : (0:ℚ) ≤ (pyRoundInt ((1 - d) * 100 * 10) : ℚ) := by exact_mod_cast hplo
  have hc1 : (pyRoundInt ((1 - d) * 100 * 10) : ℚ) ≤ 1000 := by exact_mod_cast hphi
  rw [confidenceScore]
  constructor
  · linarith
  · linarith

/-- Witness for C3 amended at `best_distance = 1`. -/
theorem c3_confidence_in_range_witness :
    ((0:ℚ) ≤ 1 ∧ (1:ℚ) ≤ 1) ∧
    (0 ≤ confidenceScore 1 ∧ confidenceScore 1 ≤ 100) :=
  ⟨⟨zero_le_one, le_refl 1⟩, c3_confidence_in_range 1 zero_le_one (le_refl 1)⟩

end FaceMood

namespace FaceMood

/-- An undecodable candidate photo that nevertheless carries a region whose
votes would match: `cv2.imread` returns `None` for it. -/
def badPhoto : Photo :=
  { decodable := false
    regions := [{ votes := [some ⟨true, 0⟩], emotionResult := some "happy" }] }

/-- C5 is refuted: with a non-empty reference set, an empty candidate set
returns an empty result (no error), and an undecodable image is silently
skipped (no error) — of the claim's three InputError conditions only the
empty reference set raises. -/
theorem c5_counterexample :
    markReferenceFaces [()] (17/25) 2 [] = Except.ok [] ∧
    markReferenceFaces [()] (17/25) 2 [badPhoto] = Except.ok [] :=
  ⟨rfl, rfl⟩

/-- C5 amended: the pipeline raises (`ValueError`, src line 278) iff the
reference set is empty; an empty candidate set yields `ok []` and an
undecodable candidate is skipped without affecting the rest. -/
theorem c5_error_iff_empty_refs (refs : List Unit) (thr : ℚ) (k : ℕ)
    (photos : List Photo) :
    ((∃ msg, markReferenceFaces refs thr k photos = Except.error msg) ↔
      refs = []) ∧
    (∀ p : Photo, p.decodable = false →
      markReferenceFaces refs thr k (p :: photos) =
        markReferenceFaces refs thr k photos) := by
  constructor
  · constructor
    · rintro ⟨msg, hmsg⟩
      unfold markReferenceFaces at hmsg
      by_cases h : refs.length = 0
      · exact List.length_eq_zero.mp h
      · rw [if_neg h] at hmsg
        exact absurd hmsg (by simp)
    · rintro rfl
      exact ⟨"No reference images found!", rfl⟩
  · intro p hp
    unfold markReferenceFaces
    by_cases h : refs.length = 0
    · rw [if_pos h, if_pos h]
    · rw [if_neg h, if_neg h]
      have hnone : processSinglePhoto thr k p = none := by
        simp [processSinglePhoto, hp]
      rw [List.filterMap_cons, hnone]

/-- Witness for C5 amended at a singleton reference set. -/
theorem c5_error_iff_empty_refs_witness :
    badPhoto.decodable = false ∧
    ((∃ msg, markReferenceFaces [()] (17/25) 2 ([] : List Photo) =
        Except.error msg) ↔ ([()] : List Unit) = []) ∧
    markReferenceFaces [()] (17/25) 2 [badPhoto] =
      markReferenceFaces [()] (17/25) 2 [] :=
  ⟨rfl, (c5_error_iff_empty_refs [()] (17/25) 2 []).1,
    (c5_error_iff_empty_refs [()] (17/25) 2 []).2 badPhoto rfl⟩

end FaceMood

namespace FaceMood

/-- Insertion order of the tally dict of `_analyze_emotions_from_photos`
(src line 467) — NOT the vocabulary order. -/
def tallyOrder : List String :=
  ["happy", "sad", "angry", "fear", "surprise", "disgust", "neutral"]

/-- The fixed emotion vocabulary `self.emotions` (src line 21), which is
also the insertion order of the tally of `get_emotion_statistics`
(src line 122). -/
def vocabOrder : List String :=
  ["angry", "disgust", "fear", "happy", "sad", "surprise", "neutral"]

/-- One input to `_analyze_emotions_from_photos` (src lines 465-492):
whether the filename contains the substring `marked_`, whether `cv2.imread`
decodes the file, and the (lower-cased) dominant label of the
`DeepFace.analyze` call (`none` = the call raised, caught by the bare
`except` at line 484). -/
structure MarkedPhoto where
  hasMarkedTag : Bool
  readable : Bool
  emotion : Option String
  deriving DecidableEq, Repr

/-- The vote one photo contributes in src lines 469-488: only photos whose
filename contains `marked_` AND whose image decodes are considered; a
raised classification is a `neutral` vote (line 485); a label outside the
tally keys is dropped (line 482-483); all other photos contribute no vote
at all. -/
def photoVote (p : MarkedPhoto) : Option String :=
  if p.hasMarkedTag && p.readable then
    match p.emotion with
    | some e => if e ∈ tallyOrder then some e else none
    | none => some "neutral"
  else none

/-- `emotion_counts[e]` after the loop of src lines 469-488. -/
def tallyCount (ps : List MarkedPhoto) (e : String) : ℕ :=
  (ps.filterMap photoVote).count e

/-- `sum(emotion_counts.values())`. -/
def sumTally (ps : List MarkedPhoto) : ℕ :=
  (tallyOrder.map (tallyCount ps)).sum

/-- Python's `max(items, key=...)` over a non-empty key list: scan in
iteration order, replacing the current best only on a strictly greater
count, so the FIRST key attaining the maximum wins (src lines 491 and
131). -/
def pyMaxByCount (counts : String → ℕ) : List String → String
  | [] => "neutral"
  | e :: rest => rest.foldl (fun best x => if counts best < counts x then x else best) e

/-- The dominant emotion returned by `_analyze_emotions_from_photos`
(src line 491): `max` over the tally dict in ITS insertion order. -/
def analyzeDominant (ps : List MarkedPhoto) : String :=
  pyMaxByCount (tallyCount ps) tallyOrder

/-- `most_common_emotion` of `get_emotion_statistics` (src line 131):
`max` over a tally whose insertion order is the vocabulary order. -/
def mostCommonEmotion (counts : String → ℕ) : String :=
  pyMaxByCount counts vocabOrder

/-- Any vote produced by `photoVote` is one of the seven tally keys. -/
theorem photoVote_mem {p : MarkedPhoto} {e : String}
    (h : photoVote p = some e) : e ∈ tallyOrder := by
  unfold photoVote at h
  split at h
  · split at h
    · split at h
      · rename_i hmem
        cases h
        exact hmem
      · exact absurd h (by simp)
    · cases h
      simp [tallyOrder]
  · exact absurd h (by simp)


/-- Summing the per-key indicator over a key list counts the occurrences of
the key. -/
theorem sum_map_ite_eq (a : String) (order : List String) :
    (order.map (fun e => if a = e then 1 else 0)).sum = order.count a := by
  induction order with
  | nil => simp
  | cons x os ih =>
    rw [List.map_cons, List.sum_cons, ih, List.count_cons]
    simp only [beq_iff_eq]
    by_cases hx : a = x
    · simp only [hx, if_true, if_pos rfl]
      omega
    · simp only [if_neg hx, if_neg (Ne.symm hx)]
      omega

/-- Prepending one element adds its indicator to every per-key count. -/
theorem sum_map_count_cons (a : String) (t : List String)
    (order : List String) :
    (order.map (fun e => (a :: t).count e)).sum =
      (order.map (fun e => t.count e)).sum +
        (order.map (fun e => if a = e then 1 else 0)).sum := by
  induction order with
  | nil => simp
  | cons y ys ih =>
    simp only [List.map_cons, List.sum_cons]
    rw [ih, List.count_cons]
    simp only [beq_iff_eq]
    by_cases hy : a = y
    · simp only [hy, if_true, if_pos rfl]
      omega
    · simp only [if_neg hy, if_neg (Ne.symm hy)]
      omega

/-- Summing the counts of all keys of a duplicate-free key list, over a
list whose members are all keys, gives the list's length. -/
theorem sum_map_count_eq_length (order : List String) (hnd : order.Nodup) :
    ∀ l : List String, (∀ x ∈ l, x ∈ order) →
      (order.map (fun e => l.count e)).sum = l.length := by
  intro l
  induction l with
  | nil => intro _; simp
  | cons a t ih =>
    intro hsub
    have ha : a ∈ order := hsub a (by simp)
    have ht : ∀ x ∈ t, x ∈ order := fun x hx => hsub x (by simp [hx])
    rw [sum_map_count_cons, ih ht, sum_map_ite_eq,
      List.count_eq_one_of_mem hnd ha, List.length_cons]

/-- A photo whose filename does not contain `marked_`; its classification
would even succeed. -/
def unmarkedPhoto : MarkedPhoto :=
  { hasMarkedTag := false, readable := true, emotion := some "happy" }

/-- C6 is refuted twice: a readable photo whose filename lacks `marked_`
contributes NO vote, so the tally sums to 0 for a one-photo input; and on
the empty input the dominant emotion is `happy` (the first key of the tally
dict in src line 467), not `neutral`. -/
theorem c6_counterexample :
    sumTally [unmarkedPhoto] = 0 ∧
    ([unmarkedPhoto] : List MarkedPhoto).length = 1 ∧
    (0 : ℕ) ≠ 1 ∧
    analyzeDominant [] = "happy" ∧
    "happy" ≠ "neutral" := by
  refine ⟨?_, rfl, by omega, rfl, by decide⟩
  simp [sumTally, tallyCount, photoVote, unmarkedPhoto, tallyOrder]

/-- C6 amended: the tally sums to the number of photos that contribute a
vote — those whose filename contains `marked_`, whose image decodes, and
whose classification either raises (a `neutral` vote) or yields an
in-vocabulary label; that number is at most `len(photos)`.  The empty input
gives an all-zero tally whose dominant is `happy`, the first tally key, not
`neutral`. -/
theorem c6_tally_sum :
    (∀ ps : List MarkedPhoto,
      sumTally ps = (ps.filterMap photoVote).length) ∧
    (∀ ps : List MarkedPhoto, sumTally ps ≤ ps.length) ∧
    (∀ e : String, tallyCount [] e = 0) ∧
    analyzeDominant [] = "happy" := by
  have hnd : tallyOrder.Nodup := by decide
  have hsum : ∀ ps : List MarkedPhoto,
      sumTally ps = (ps.filterMap photoVote).length := by
    intro ps
    exact sum_map_count_eq_length tallyOrder hnd (ps.filterMap photoVote)
      (fun x hx => by
        obtain ⟨p, _, hp⟩ := List.mem_filterMap.mp hx
        exact photoVote_mem hp)
  refine ⟨hsum, ?_, ?_, rfl⟩
  · intro ps
    rw [hsum ps]
    exact List.length_filterMap_le photoVote ps
  · intro e
    simp [tallyCount]

/-- The Python `max` scan returns an element whose count is at least the
count of the seed and of every scanned element. -/
theorem foldl_pyMax_ge (counts : String → ℕ) :
    ∀ (l : List String) (b : String),
      counts b ≤
        counts (l.foldl (fun best x => if counts best < counts x then x else best) b) ∧
      ∀ e ∈ l, counts e ≤
        counts (l.foldl (fun best x => if counts best < counts x then x else best) b) := by
  intro l
  induction l with
  | nil =>
    intro b
    exact ⟨le_refl _, by simp⟩
  | cons x t ih =>
    intro b
    rw [List.foldl_cons]
    have hb : counts b ≤ counts (if counts b < counts x then x else b) := by
      by_cases h : counts b < counts x
      · rw [if_pos h]; omega
      · rw [if_neg h]
    have hx : counts x ≤ counts (if counts b < counts x then x else b) := by
      by_cases h : counts b < counts x
      · rw [if_pos h]
      · rw [if_neg h]; omega
    obtain ⟨h1, h2⟩ := ih (if counts b < counts x then x else b)
    refine ⟨le_trans hb h1, ?_⟩
    intro e he
    rcases List.mem_cons.mp he with rfl | he2
    · exact le_trans hx h1
    · exact h2 e he2

/-- `pyMaxByCount` attains the maximum count over its key list. -/
theorem pyMax_ge (counts : String → ℕ) (order : List String) :
    ∀ e ∈ order, counts e ≤ counts (pyMaxByCount counts order) := by
  intro e he
  cases order with
  | nil => simp at he
  | cons x t =>
    rw [pyMaxByCount]
    obtain ⟨h1, h2⟩ := foldl_pyMax_ge counts t x
    rcases List.mem_cons.mp he with rfl | he2
    · exact h1
    · exact h2 e he2

/-- Four marked, readable photos classified angry, angry, happy, happy. -/
def tiePhotos : List MarkedPhoto :=
  [⟨true, true, some "angry"⟩, ⟨true, true, some "angry"⟩,
   ⟨true, true, some "happy"⟩, ⟨true, true, some "happy"⟩]

/-- Four marked, readable photos classified happy, happy, sad, sad. -/
def happySadPhotos : List MarkedPhoto :=
  [⟨true, true, some "happy"⟩, ⟨true, true, some "happy"⟩,
   ⟨true, true, some "sad"⟩, ⟨true, true, some "sad"⟩]

/-- C7 is refuted: on the tie `{angry: 2, happy: 2}` the dominant emotion
computed by `_analyze_emotions_from_photos` is `happy` (first key of ITS
tally dict), not `angry` as the claimed vocabulary-order tie-break
requires. -/
theorem c7_counterexample :
    tallyCount tiePhotos "angry" = 2 ∧
    tallyCount tiePhotos "happy" = 2 ∧
    analyzeDominant tiePhotos = "happy" ∧
    "happy" ≠ "angry" := by decide

/-- C7 amended: both dominant-emotion computations return a label of
maximal count, but ties are broken by the respective tally dict's insertion
order: `_analyze_emotions_from_photos` uses
`[happy, sad, angry, fear, surprise, disgust, neutral]` (so `{angry: 2,
happy: 2}` resolves to `happy`), while `get_emotion_statistics` uses the
vocabulary order `[angry, disgust, fear, happy, sad, surprise, neutral]`
(so it resolves to `angry`); `{happy: 2, sad: 2}` resolves to `happy` in
both. -/
theorem c7_dominant_max_and_tiebreak :
    (∀ ps : List MarkedPhoto, ∀ e ∈ tallyOrder,
      tallyCount ps e ≤ tallyCount ps (analyzeDominant ps)) ∧
    (∀ counts : String → ℕ, ∀ e ∈ vocabOrder,
      counts e ≤ counts (mostCommonEmotion counts)) ∧
    analyzeDominant tiePhotos = "happy" ∧
    mostCommonEmotion (tallyCount tiePhotos) = "angry" ∧
    analyzeDominant happySadPhotos = "happy" ∧
    mostCommonEmotion (tallyCount happySadPhotos) = "happy" := by
  refine ⟨fun ps e he => pyMax_ge _ _ e he,
    fun counts e he => pyMax_ge _ _ e he, by decide, by decide, by decide,
    by decide⟩

/-- Witness for C7 amended: instantiate the maximality statements at the
key `sad` of the concrete tied tally. -/
theorem c7_dominant_max_and_tiebreak_witness :
    ("sad" ∈ tallyOrder ∧ "sad" ∈ vocabOrder) ∧
    tallyCount tiePhotos "sad" ≤
      tallyCount tiePhotos (analyzeDominant tiePhotos) ∧
    tallyCount tiePhotos "sad" ≤
      tallyCount tiePhotos (mostCommonEmotion (tallyCount tiePhotos)) :=
  ⟨⟨by decide, by decide⟩,
    c7_dominant_max_and_tiebreak.1 tiePhotos "sad" (by decide),
    c7_dominant_max_and_tiebreak.2.1 (tallyCount tiePhotos) "sad" (by decide)⟩

end FaceMood

namespace FaceMood

/-- src line 502: `sample_rate = 44100`. -/
def sampleRate : ℕ := 44100

/-- src line 501: `min_duration = max(duration, 30.0)`. -/
def minDuration (d : ℚ) : ℚ := max d 30

/-- src line 503: `samples = int(min_duration * sample_rate)`; the argument
is at least `30 * 44100 > 0`, so Python's truncating `int()` is the
floor. -/
def numSamples (d : ℚ) : ℤ := ⌊minDuration d * 44100⌋

/-- Playback duration in seconds of a waveform of `numSamples d` samples at
the fixed sample rate. -/
def effectiveDurationSec (d : ℚ) : ℚ := (numSamples d : ℚ) / 44100

/-- src line 519: `t = np.linspace(0, min_duration, samples, False)` —
`samples` evenly spaced points starting at 0, endpoint excluded. -/
def timeArray (d : ℚ) : List ℚ :=
  (List.range (numSamples d).toNat).map
    (fun j => (j : ℚ) * minDuration d / (numSamples d : ℚ))

/-- src line 525: `fade_samples = int(2.0 * sample_rate)`. -/
def fadeSamples : ℕ := 88200

/-- src lines 526-532: when the signal is strictly longer than two fade
windows, the first `fade_samples` samples are scaled by
`np.linspace(0, 1, fade_samples)` and the last `fade_samples` by
`np.linspace(1, 0, fade_samples)`; otherwise the signal is unchanged. -/
def applyFade (a : List ℚ) : List ℚ :=
  if 2 * fadeSamples < a.length then
    a.mapIdx (fun i x =>
      if i < fadeSamples then x * ((i : ℚ) / ((fadeSamples : ℚ) - 1))
      else if a.length - fadeSamples ≤ i then
        x * (((a.length - 1 - i : ℕ) : ℚ) / ((fadeSamples : ℚ) - 1))
      else x)
  else a

/-- `np.max(np.abs(audio))` (src line 535), folded with neutral element 0
(all entries of `np.abs` are nonnegative, so this agrees with numpy's max
on every non-empty signal). -/
def maxAbs (l : List ℚ) : ℚ := l.foldr (fun x m => max |x| m) 0

/-- src lines 535-537: `if max_val > 0: audio = audio / max_val * 0.8`. -/
def normalizeAudio (a : List ℚ) : List ℚ :=
  if 0 < maxAbs a then a.map (fun x => x / maxAbs a * (4/5)) else a

/-- C8: the composed waveform's duration is `max(duration, 30)` (exactly,
for whole-second durations; up to one sample period below for fractional
ones), hence always at least 30 seconds; a 5-second request yields exactly
30 seconds, never 5. -/
theorem c8_duration_floor :
    (∀ d : ℚ, 30 ≤ effectiveDurationSec d) ∧
    (∀ d : ℚ, max d 30 - 1/44100 < effectiveDurationSec d ∧
      effectiveDurationSec d ≤ max d 30) ∧
    (∀ n : ℕ, effectiveDurationSec (n : ℚ) = max (n : ℚ) 30) ∧
    effectiveDurationSec 5 = 30 ∧
    effectiveDurationSec 5 ≠ 5 := by
  have hmain : ∀ d : ℚ, max d 30 - 1/44100 < effectiveDurationSec d ∧
      effectiveDurationSec d ≤ max d 30 := by
    intro d
    have hle : (⌊max d 30 * 44100⌋ : ℚ) ≤ max d 30 * 44100 :=
      Int.floor_le _
    have hgt : max d 30 * 44100 - 1 < (⌊max d 30 * 44100⌋ : ℚ) :=
      Int.sub_one_lt_floor _
    constructor
    · rw [effectiveDurationSec, numSamples, minDuration]
      rw [lt_div_iff₀ (by norm_num : (0:ℚ) < 44100)]
      linarith
    · rw [effectiveDurationSec, numSamples, minDuration]
      rw [div_le_iff₀ (by norm_num : (0:ℚ) < 44100)]
      linarith
  have h30 : ∀ d : ℚ, 30 ≤ effectiveDurationSec d := by
    intro d
    have h : (1323000 : ℤ) ≤ ⌊max d 30 * 44100⌋ := by
      rw [Int.le_floor]
      push_cast
      nlinarith [le_max_right d 30]
    have hq : (1323000 : ℚ) ≤ (⌊max d 30 * 44100⌋ : ℚ) := by exact_mod_cast h
    rw [effectiveDurationSec, numSamples, minDuration,
      le_div_iff₀ (by norm_num : (0:ℚ) < 44100)]
    linarith
  have hnat : ∀ n : ℕ, effectiveDurationSec (n : ℚ) = max (n : ℚ) 30 := by
    intro n
    have hcast : max (n : ℚ) 30 = ((max n 30 : ℕ) : ℚ) := by
      rw [Nat.cast_max]
      norm_num
    rw [effectiveDurationSec, numSamples, minDuration, hcast]
    have hfloor : ⌊((max n 30 : ℕ) : ℚ) * 44100⌋ = ((max n 30 : ℕ) : ℤ) * 44100 := by
      rw [show ((max n 30 : ℕ) : ℚ) * 44100 = (((max n 30 : ℕ) : ℤ) * 44100 : ℤ) by push_cast; ring]
      exact Int.floor_intCast _
    rw [hfloor]
    push_cast
    ring
  have h5 : effectiveDurationSec 5 = 30 := by
    have := hnat 5
    rw [show ((5:ℕ) : ℚ) = 5 by norm_num] at this
    rw [this]
    norm_num
  exact ⟨h30, hmain, hnat, h5, by rw [h5]; norm_num⟩

/-- Scaling every entry by the nonnegative factor `c / m` scales the peak
absolute amplitude by the same factor. -/
theorem maxAbs_map_div_mul (l : List ℚ) (m c : ℚ) (hm : 0 < m)
    (hc : 0 ≤ c) :
    maxAbs (l.map (fun x => x / m * c)) = maxAbs l / m * c := by
  induction l with
  | nil => simp [maxAbs]
  | cons a t ih =>
    have hstep : maxAbs ((fun x => x / m * c) a :: t.map (fun x => x / m * c)) =
        max |a / m * c| (maxAbs (t.map (fun x => x / m * c))) := rfl
    rw [List.map_cons, hstep, ih]
    have habs : |a / m * c| = |a| / m * c := by
      rw [abs_mul, abs_div, abs_of_pos hm, abs_of_nonneg hc]
    rw [habs]
    have hmono : max (|a| / m * c) (maxAbs t / m * c) =
        max |a| (maxAbs t) / m * c := by
      rw [← max_mul_of_nonneg _ _ hc, max_div_div_right (le_of_lt hm)]
    rw [hmono]
    rfl

/-- The peak of a normalized non-silent signal is exactly 4/5 of full
scale. -/
theorem normalize_peak (b : List ℚ) (hb : 0 < maxAbs b) :
    maxAbs (normalizeAudio b) = 4/5 := by
  rw [normalizeAudio, if_pos hb,
    maxAbs_map_div_mul b (maxAbs b) (4/5) hb (by norm_num),
    div_self (ne_of_gt hb)]
  norm_num

/-- C9: for every signal that is non-silent after the fade step, the
normalization that follows it (src lines 534-537) brings the peak absolute
amplitude of the pre-quantization signal to exactly 0.8 of full scale. -/
theorem c9_normalized_peak (a : List ℚ)
    (h : 0 < maxAbs (applyFade a)) :
    maxAbs (normalizeAudio (applyFade a)) = 4/5 :=
  normalize_peak (applyFade a) h

/-- A short demo signal (3 samples, shorter than the fade window, so the
fade leaves it unchanged). -/
def demoAudio : List ℚ := [0, 1, 0]

/-- Witness for C9 at the demo signal. -/
theorem c9_normalized_peak_witness :
    0 < maxAbs (applyFade demoAudio) ∧
    maxAbs (normalizeAudio (applyFade demoAudio)) = 4/5 := by
  have hfade : applyFade demoAudio = demoAudio := by
    rw [applyFade, if_neg]
    decide
  have h : 0 < maxAbs (applyFade demoAudio) := by
    rw [hfade]
    show (0:ℚ) < max |0| (max |1| (max |0| 0))
    simp
  exact ⟨h, c9_normalized_peak demoAudio h⟩

end FaceMood

namespace FaceMood

/-- The numpy transcendental primitives, abstracted: `osc x` stands for
`np.sin(2 * np.pi * x)` and `decay x` for `np.exp(-x)`.  All layer formulas
below are transcribed against these primitives; the verified properties
hold for an arbitrary interpretation. -/
structure SynthPrims where
  osc : ℚ → ℚ
  decay : ℚ → ℚ

/-- The static per-emotion music theme record of src lines 559-630. -/
structure MusicTheme where
  name : String
  chordProgression : List ℚ
  melodyNotes : List ℚ
  tempo : ℚ
  style : String
  dynamics : String
  deriving Repr

/-- The `neutral` entry of the theme table (src lines 620-629). -/
def neutralTheme : MusicTheme :=
  { name := "Peaceful Ambience"
    chordProgression := [261.63, 329.63, 392.00, 523.25]
    melodyNotes := [523.25, 587.33, 659.25, 698.46, 783.99]
    tempo := 80
    style := "ambient_peaceful"
    dynamics := "mezzo_piano" }

/-- The static theme table `emotion_themes` of src lines 559-630 (the
fields consumed by the composer; `description` and `key` are display-only
strings and are omitted). -/
def emotionThemes : List (String × MusicTheme) :=
  [("happy",
    { name := "Joyful Celebration"
      chordProgression := [261.63, 329.63, 392.00, 523.25]
      melodyNotes := [523.25, 587.33, 659.25, 698.46, 783.99]
      tempo := 120
      style := "orchestral_upbeat"
      dynamics := "forte" }),
   ("sad",
    { name := "Melancholic Reflection"
      chordProgression := [220.00, 261.63, 293.66, 349.23]
      melodyNotes := [440.00, 493.88, 523.25, 587.33, 659.25]
      tempo := 60
      style := "piano_ballad"
      dynamics := "piano" }),
   ("angry",
    { name := "Intense Confrontation"
      chordProgression := [146.83, 174.61, 220.00, 246.94]
      melodyNotes := [293.66, 329.63, 369.99, 415.30, 466.16]
      tempo := 140
      style := "orchestral_dramatic"
      dynamics := "fortissimo" }),
   ("fear",
    { name := "Suspenseful Mystery"
      chordProgression := [184.99, 220.00, 246.94, 293.66]
      melodyNotes := [369.99, 415.30, 466.16, 523.25, 587.33]
      tempo := 80
      style := "atmospheric_dark"
      dynamics := "pianissimo" }),
   ("surprise",
    { name := "Magical Discovery"
      chordProgression := [329.63, 415.30, 493.88, 659.25]
      melodyNotes := [659.25, 739.99, 830.61, 987.77, 1108.73]
      tempo := 110
      style := "orchestral_whimsical"
      dynamics := "mezzo_forte" }),
   ("disgust",
    { name := "Unsettling Dissonance"
      chordProgression := [196.00, 233.08, 277.18, 311.13]
      melodyNotes := [392.00, 466.16, 554.37, 622.25, 698.46]
      tempo := 90
      style := "atonal_unsettling"
      dynamics := "mezzo_piano" }),
   ("neutral", neutralTheme)]

/-- `emotion_themes.get(emotion, emotion_themes['neutral'])`
(src line 632). -/
def themeFor (e : String) : MusicTheme :=
  (emotionThemes.lookup e).getD neutralTheme

/-- Indicator of a half-open time window, the `(t >= a) & (t < b)` masks of
the layer builders. -/
def winMask (a b tt : ℚ) : ℚ := if a ≤ tt ∧ tt < b then 1 else 0

/-- `_create_orchestral_layer` (src lines 675-717), per sample: sustained
chords with overtones (optionally pulsed when `mood = 'upbeat'`) plus a
vibrato melody with harmonics. -/
def createOrchestralLayer (P : SynthPrims) (t : List ℚ)
    (chords melody : List ℚ) (tempo : ℚ) (mood : String) : List ℚ :=
  t.map (fun tt =>
    (chords.enum.map (fun p =>
      (0.3 * P.osc (p.2 * tt) + 0.2 * P.osc (p.2 * 1.25 * tt)
          + 0.15 * P.osc (p.2 * 1.5 * tt) + 0.1 * P.osc (p.2 * 2 * tt))
        * winMask ((p.1 : ℚ) * (60 / tempo) * 2)
            ((p.1 : ℚ) * (60 / tempo) * 2 + (60 / tempo) * 2) tt
        * (if mood = "upbeat" then 1 + 0.1 * P.osc (tempo / 60 * tt)
           else 1))).sum
    + (melody.enum.map (fun p =>
      (0.25 * P.osc (p.2 * tt) * (1 + 0.05 * P.osc (6 * tt))
          + 0.1 * P.osc (p.2 * 2 * tt) + 0.05 * P.osc (p.2 * 3 * tt))
        * winMask ((p.1 : ℚ) * (60 / tempo) / 2)
            ((p.1 : ℚ) * (60 / tempo) / 2 + (60 / tempo) / 2) tt)).sum)

/-- `_create_piano_layer` (src lines 719-762), per sample: arpeggiated
chords with exponential decay plus a decaying melody line. -/
def createPianoLayer (P : SynthPrims) (t : List ℚ)
    (chords melody : List ℚ) (tempo : ℚ) : List ℚ :=
  t.map (fun tt =>
    (chords.enum.map (fun p =>
      (([p.2, p.2 * 1.25, p.2 * 1.5, p.2 * 2].enum.map (fun q =>
        (0.4 * P.osc (q.2 * tt) + 0.2 * P.osc (q.2 * 2 * tt)
            + 0.1 * P.osc (q.2 * 3 * tt))
          * (winMask ((p.1 : ℚ) * (60 / tempo) * 4 + (q.1 : ℚ) * (60 / tempo))
              ((p.1 : ℚ) * (60 / tempo) * 4 + (q.1 : ℚ) * (60 / tempo)
                + (60 / tempo) * 2) tt
            * P.decay ((tt - ((p.1 : ℚ) * (60 / tempo) * 4
                + (q.1 : ℚ) * (60 / tempo))) / ((60 / tempo) * 0.8))))).sum))).sum
    + (melody.enum.map (fun p =>
      (0.3 * P.osc (p.2 * tt) + 0.15 * P.osc (p.2 * 2 * tt))
        * (winMask ((p.1 : ℚ) * (60 / tempo))
            ((p.1 : ℚ) * (60 / tempo) + (60 / tempo) * 1.5) tt
          * P.decay ((tt - (p.1 : ℚ) * (60 / tempo))
              / ((60 / tempo) * 1.5))))).sum)

/-- `_create_dramatic_layer` (src lines 764-804), per sample: brass chords
with swells plus an accented melody. -/
def createDramaticLayer (P : SynthPrims) (t : List ℚ)
    (chords melody : List ℚ) (tempo : ℚ) : List ℚ :=
  t.map (fun tt =>
    (chords.enum.map (fun p =>
      (0.4 * P.osc (p.2 * tt) + 0.3 * P.osc (p.2 * 1.5 * tt)
          + 0.2 * P.osc (p.2 * 2 * tt) + 0.1 * P.osc (p.2 * 3 * tt))
        * winMask ((p.1 : ℚ) * (60 / tempo) * 2)
            ((p.1 : ℚ) * (60 / tempo) * 2 + (60 / tempo) * 2) tt
        * (1 + 0.3 * P.osc (0.5 * (tt - (p.1 : ℚ) * (60 / tempo) * 2))))).sum
    + (melody.enum.map (fun p =>
      (0.35 * P.osc (p.2 * tt) + 0.2 * P.osc (p.2 * 1.5 * tt)
          + 0.15 * P.osc (p.2 * 2 * tt))
        * (winMask ((p.1 : ℚ) * (60 / tempo) / 2)
            ((p.1 : ℚ) * (60 / tempo) / 2 + (60 / tempo)) tt
          * (if (p.1 : ℚ) * (60 / tempo) / 2 ≤ tt ∧
               tt < (p.1 : ℚ) * (60 / tempo) / 2 + 0.1 then
              (tt - (p.1 : ℚ) * (60 / tempo) / 2) / 0.1
            else 1)))).sum)

/-- `_create_atmospheric_layer` (src lines 806-842), per sample: unmasked
low-frequency tremolo pads plus a sparse slow-attack melody (every third
note only). -/
def createAtmosphericLayer (P : SynthPrims) (t : List ℚ)
    (chords melody : List ℚ) (tempo : ℚ) : List ℚ :=
  t.map (fun tt =>
    (chords.map (fun f =>
      (0.2 * P.osc (f / 4 * tt) + 0.15 * P.osc (f / 4 * 1.5 * tt))
        * (1 + 0.1 * P.osc (4 * tt)))).sum
    + (melody.enum.map (fun p =>
      if p.1 % 3 = 0 then
        (0.15 * P.osc (p.2 * tt) + 0.1 * P.osc (p.2 * 1.1 * tt))
          * (winMask ((p.1 : ℚ) * (60 / tempo) * 2)
              ((p.1 : ℚ) * (60 / tempo) * 2 + (60 / tempo) * 3) tt
            * (if (p.1 : ℚ) * (60 / tempo) * 2 ≤ tt ∧
                 tt < (p.1 : ℚ) * (60 / tempo) * 2 + 1 then
                (tt - (p.1 : ℚ) * (60 / tempo) * 2) / 1
              else 1))
      else 0)).sum)

/-- `_create_whimsical_layer` (src lines 844-884), per sample: staccato
chord hits (four per chord) plus a playful melody with grace notes. -/
def createWhimsicalLayer (P : SynthPrims) (t : List ℚ)
    (chords melody : List ℚ) (tempo : ℚ) : List ℚ :=
  t.map (fun tt =>
    (chords.enum.map (fun p =>
      ((List.range 4).map (fun beat =>
        (0.25 * P.osc (p.2 * tt) + 0.15 * P.osc (p.2 * 2 * tt))
          * winMask ((p.1 : ℚ) * (60 / tempo) * 2
                + (beat : ℚ) * (60 / tempo) / 2)
              ((p.1 : ℚ) * (60 / tempo) * 2 + (beat : ℚ) * (60 / tempo) / 2
                + (60 / tempo) / 4) tt)).sum)).sum
    + (melody.enum.map (fun p =>
      0.3 * P.osc (p.2 * tt)
          * winMask ((p.1 : ℚ) * (60 / tempo) / 2)
              ((p.1 : ℚ) * (60 / tempo) / 2 + (60 / tempo) / 2) tt
        + 0.2 * P.osc (p.2 * 1.125 * tt)
            * winMask ((p.1 : ℚ) * (60 / tempo) / 2)
                ((p.1 : ℚ) * (60 / tempo) / 2 + (60 / tempo) / 16) tt)).sum)

/-- `_create_unsettling_layer` (src lines 886-922), per sample: dissonant
clusters with a beating envelope plus a detuned melody. -/
def createUnsettlingLayer (P : SynthPrims) (t : List ℚ)
    (chords melody : List ℚ) (tempo : ℚ) : List ℚ :=
  t.map (fun tt =>
    (chords.enum.map (fun p =>
      (0.2 * P.osc (p.2 * tt) + 0.2 * P.osc (p.2 * 1.1 * tt)
          + 0.15 * P.osc (p.2 * 1.4 * tt) + 0.1 * P.osc (p.2 * 1.7 * tt))
        * winMask ((p.1 : ℚ) * (60 / tempo) * 3)
            ((p.1 : ℚ) * (60 / tempo) * 3 + (60 / tempo) * 3) tt
        * (1 + 0.2 * P.osc (2 * tt)))).sum
    + (melody.enum.map (fun p =>
      (0.2 * P.osc (p.2 * 1.03 * tt) + 0.15 * P.osc (p.2 * 0.97 * tt))
        * winMask ((p.1 : ℚ) * (60 / tempo))
            ((p.1 : ℚ) * (60 / tempo) + (60 / tempo) * 1.5) tt)).sum)

/-- `_create_ambient_layer` (src lines 924-961), per sample: unmasked
breathing pads plus a soft melody with attack and release ramps. -/
def createAmbientLayer (P : SynthPrims) (t : List ℚ)
    (chords melody : List ℚ) (tempo : ℚ) : List ℚ :=
  t.map (fun tt =>
    (chords.map (fun f =>
      (0.15 * P.osc (f * tt) + 0.1 * P.osc (f * 1.5 * tt)
          + 0.08 * P.osc (f * 2 * tt))
        * (1 + 0.05 * P.osc (0.2 * tt)))).sum
    + (melody.enum.map (fun p =>
      (0.2 * P.osc (p.2 * tt) + 0.1 * P.osc (p.2 * 2 * tt))
        * (winMask ((p.1 : ℚ) * (60 / tempo) * 2)
            ((p.1 : ℚ) * (60 / tempo) * 2 + (60 / tempo) * 4) tt
          * ((if (p.1 : ℚ) * (60 / tempo) * 2 ≤ tt ∧
                tt < (p.1 : ℚ) * (60 / tempo) * 2 + 2 then
               (tt - (p.1 : ℚ) * (60 / tempo) * 2) / 2
             else 1)
            * (if (p.1 : ℚ) * (60 / tempo) * 2 + (60 / tempo) * 4 - 2 ≤ tt ∧
                 tt < (p.1 : ℚ) * (60 / tempo) * 2 + (60 / tempo) * 4 then
                1 - (tt - ((p.1 : ℚ) * (60 / tempo) * 2
                  + (60 / tempo) * 4 - 2)) / 2
              else 1))))).sum)

/-- `_compose_cinematic_piece` (src lines 640-673): dispatch on the theme's
style string to one of the seven layer builders (anything else falls to the
ambient layer). -/
def composeCinematic (P : SynthPrims) (theme : MusicTheme) (t : List ℚ) :
    List ℚ :=
  if theme.style = "orchestral_upbeat" then
    createOrchestralLayer P t theme.chordProgression theme.melodyNotes
      theme.tempo "upbeat"
  else if theme.style = "piano_ballad" then
    createPianoLayer P t theme.chordProgression theme.melodyNotes theme.tempo
  else if theme.style = "orchestral_dramatic" then
    createDramaticLayer P t theme.chordProgression theme.melodyNotes
      theme.tempo
  else if theme.style = "atmospheric_dark" then
    createAtmosphericLayer P t theme.chordProgression theme.melodyNotes
      theme.tempo
  else if theme.style = "orchestral_whimsical" then
    createWhimsicalLayer P t theme.chordProgression theme.melodyNotes
      theme.tempo
  else if theme.style = "atonal_unsettling" then
    createUnsettlingLayer P t theme.chordProgression theme.melodyNotes
      theme.tempo
  else
    createAmbientLayer P t theme.chordProgression theme.melodyNotes
      theme.tempo

/-- `_generate_emotion_based_music` (src lines 552-638): look the theme up
(falling back to `neutral`) and compose. -/
def generateEmotionMusic (P : SynthPrims) (emotion : String) (t : List ℚ) :
    List ℚ :=
  composeCinematic P (themeFor emotion) t

/-- `_generate_simple_audio` (src lines 494-550) with its one hidden input
made explicit: the marked-photos folder it scans to pick the dominant
emotion.  Composes, fades, and normalizes (the final int16 quantization is
not modelled; C9 is about the pre-quantization signal). -/
def generateSimpleAudio (P : SynthPrims) (markedFiles : List MarkedPhoto)
    (duration : ℚ) : List ℚ :=
  let dominant :=
    if markedFiles.isEmpty then "neutral" else analyzeDominant markedFiles
  normalizeAudio (applyFade (generateEmotionMusic P dominant
    (timeArray duration)))

/-- C10: composition is deterministic — the waveform is a pure function of
the emotion label, the time grid of the requested duration, and the static
theme table (for any fixed interpretation of the numpy transcendental
primitives): equal inputs give bit-identical output, the output factors
through the static table lookup, and an unknown label composes exactly the
`neutral` theme. -/
theorem c10_compose_deterministic :
    (∀ (P : SynthPrims) (e : String) (d : ℚ),
      generateEmotionMusic P e (timeArray d) =
        generateEmotionMusic P e (timeArray d)) ∧
    (∀ (P : SynthPrims) (e : String) (t : List ℚ),
      generateEmotionMusic P e t = composeCinematic P (themeFor e) t) ∧
    (∀ (P : SynthPrims) (t : List ℚ),
      generateEmotionMusic P "unknown_label" t =
        generateEmotionMusic P "neutral" t) := by
  refine ⟨fun P e d => rfl, fun P e t => rfl, fun P t => ?_⟩
  have hlookup : themeFor "unknown_label" = themeFor "neutral" := by
    simp [themeFor, emotionThemes, List.lookup]
  unfold generateEmotionMusic
  rw [hlookup]

end FaceMood
